import Mathlib

/-!
Shallow embedding of `src/bson/codec_options.py`: the `CodecOptions` value
object (validated construction, read-only accessors, equality, inequality)
and the `_parse_codec_options` adapter.

Python values relevant to this module are modelled by `PyValue`; Python
classes (type identifiers) by `PyClass`.  Exceptions raised by the module
are modelled by `PyError`.  Fallible operations return `Except PyError _`.
-/

/-- Python type identifiers that can appear as an `as_class` argument.
`dict`, `OrderedDict` and `SON` stand for concrete subclasses of
`collections.MutableMapping`; `intClass`, `strClass`, `listClass` and
`objectClass` are types that are not `MutableMapping` subclasses. -/
inductive PyClass
  | dict
  | orderedDict
  | son
  | intClass
  | strClass
  | listClass
  | objectClass
deriving DecidableEq, Repr

/-- Whether `issubclass(c, collections.MutableMapping)` holds for the class
`c`.  `dict`, `OrderedDict` and `SON` register as `MutableMapping`
subclasses; `int`, `str`, `list` and `object` do not. -/
def PyClass.isMutableMappingSubclass : PyClass → Bool
  | .dict => true
  | .orderedDict => true
  | .son => true
  | .intClass => false
  | .strClass => false
  | .listClass => false
  | .objectClass => false

/-- Python values that can be passed to `CodecOptions.__init__` or stored in
an option bag: booleans, integers, strings, class objects and `None`. -/
inductive PyValue
  | bool (b : Bool)
  | int (n : Int)
  | str (s : String)
  | cls (c : PyClass)
  | pynone
deriving DecidableEq, Repr

/-- `isinstance(v, bool)`: only genuine booleans qualify (Python integers
`0`/`1` are truthy-coercible but are not instances of `bool`). -/
def PyValue.isBool : PyValue → Bool
  | .bool _ => true
  | _ => false

/-- Python `==` on the modelled values.  Python compares `bool` and `int`
numerically (`True == 1`); classes compare by identity; values of otherwise
unrelated types compare unequal. -/
def pyEq : PyValue → PyValue → Bool
  | .bool a, .bool b => a == b
  | .bool a, .int n => (if a then (1 : Int) else 0) == n
  | .int n, .bool a => n == (if a then (1 : Int) else 0)
  | .int a, .int b => a == b
  | .str a, .str b => a == b
  | .cls a, .cls b => a == b
  | .pynone, .pynone => true
  | _, _ => false

/-- Exceptions raised by the module: `TypeError` and `ValueError` carry
their message; `NotImplementedError` is raised bare by `__eq__`. -/
inductive PyError
  | typeError (msg : String)
  | valueError (msg : String)
  | notImplementedError
deriving DecidableEq, Repr

/-- Modelled from the spec: `bson.binary` (referenced by the import in
`codec_options.py` but not under `src/`) supplies a designated legacy UUID
representation constant `PYTHON_LEGACY`, a member of the closed enumeration
of valid representations. -/
def PYTHON_LEGACY : PyValue := .int 3

/-- Modelled from the spec: `bson.binary.ALL_UUID_REPRESENTATIONS` is the
externally-defined closed enumeration of valid UUID representation values
(integer subtype constants), including the legacy member `PYTHON_LEGACY`. -/
def ALL_UUID_REPRESENTATIONS : List PyValue :=
  [.int 3, .int 4, .int 5, .int 6]

/-- Python `uuid_representation in ALL_UUID_REPRESENTATIONS` (membership is
decided with `==`, i.e. `pyEq`). -/
def uuidRepMember (u : PyValue) : Bool :=
  ALL_UUID_REPRESENTATIONS.any (fun r => pyEq u r)

/-- `issubclass(a, MutableMapping)`.  On a class object it answers the
subclass test; on a non-class first argument Python's `issubclass` itself
raises `TypeError`. -/
def issubclassMutableMapping : PyValue → Except PyError Bool
  | .cls c => .ok c.isMutableMappingSubclass
  | _ => .error (.typeError "issubclass() arg 1 must be a class")

/-- The message of the `TypeError` raised for a non-conforming container
class. -/
def containerErrMsg : String :=
  "document_class must be a subclass of MutableMapping"

/-- The message of the `TypeError` raised for a non-boolean `tz_aware`. -/
def tzAwareErrMsg : String := "tz_aware must be a boolean"

/-- The message of the `ValueError` raised for an unrecognized UUID
representation. -/
def uuidRepErrMsg : String :=
  "uuid_representation must be a value from bson.binary.ALL_UUID_REPRESENTATIONS"

/-- The `CodecOptions` instance: the three fields stored by `__init__` in
the slots `__as_class`, `__tz_aware`, `__uuid_rep`, each exposed through a
read-only property of the same name. -/
structure CodecOptions where
  as_class : PyValue
  tz_aware : PyValue
  uuid_representation : PyValue
deriving DecidableEq, Repr

/-- `CodecOptions.__init__`: the three fail-fast validation checks in
source order (container subclass test, genuine-boolean test, enumeration
membership test), then the three assignments.  Success yields the instance
holding exactly the supplied values. -/
def CodecOptions.construct (as_class tz_aware uuid_representation : PyValue) :
    Except PyError CodecOptions :=
  match issubclassMutableMapping as_class with
  | .error e => .error e
  | .ok sub =>
    if !sub then
      .error (.typeError containerErrMsg)
    else if !tz_aware.isBool then
      .error (.typeError tzAwareErrMsg)
    else if !uuidRepMember uuid_representation then
      .error (.valueError uuidRepErrMsg)
    else
      .ok ⟨as_class, tz_aware, uuid_representation⟩

/-- Whether the `as_class` argument passes the first validation check
without raising: it is a class object satisfying the `MutableMapping`
capability set. -/
def satisfiesContainerCheck : PyValue → Bool
  | .cls c => c.isMutableMappingSubclass
  | _ => false

/-- A possible right operand of `CodecOptions.__eq__` / `__ne__`: either a
`CodecOptions` instance or any other Python value. -/
inductive PyObject
  | co (c : CodecOptions)
  | plain (v : PyValue)
deriving DecidableEq, Repr

/-- `CodecOptions.__eq__`: field-wise comparison when `other` is a
`CodecOptions` instance, otherwise `raise NotImplementedError`. -/
def CodecOptions.eq (self : CodecOptions) : PyObject → Except PyError Bool
  | .co o =>
      .ok (pyEq self.as_class o.as_class &&
           pyEq self.tz_aware o.tz_aware &&
           pyEq self.uuid_representation o.uuid_representation)
  | .plain _ => .error .notImplementedError

/-- `CodecOptions.__ne__` is `return self != other`, which dispatches back
to `__ne__` on the same operands.  We embed the recursion with explicit
fuel: each unfolding consumes one unit and recurses unchanged, so the fuel
is always exhausted and no call ever produces a value. -/
def CodecOptions.neFuel : Nat → CodecOptions → PyObject → Option (Except PyError Bool)
  | 0, _, _ => none
  | n + 1, self, other => CodecOptions.neFuel n self other

/-- `_parse_codec_options`: `dict.get` with a default on an option bag,
modelled as first-match lookup in an association list. -/
def dictGet (options : List (String × PyValue)) (key : String) (dflt : PyValue) :
    PyValue :=
  match options.find? (fun p => p.1 == key) with
  | some p => p.2
  | none => dflt

/-- `_parse_codec_options(options)`: resolve the three well-known keys with
their defaults (`dict`, `False`, `PYTHON_LEGACY`) and delegate to
`CodecOptions` construction. -/
def parse_codec_options (options : List (String × PyValue)) :
    Except PyError CodecOptions :=
  CodecOptions.construct
    (dictGet options "document_class" (.cls .dict))
    (dictGet options "tz_aware" (.bool false))
    (dictGet options "uuidrepresentation" PYTHON_LEGACY)

/-- A `CodecOptions` whose fields would pass the three validation checks:
exactly the instances `construct` can produce. -/
def CodecOptions.valid (c : CodecOptions) : Bool :=
  satisfiesContainerCheck c.as_class &&
  c.tz_aware.isBool &&
  uuidRepMember c.uuid_representation

/-- Construction results that are a `TypeError`. -/
def resultIsTypeError : Except PyError CodecOptions → Bool
  | .error (.typeError _) => true
  | _ => false

/-- Equality of fallible results is decidable, so witnesses can be checked
by evaluation. -/
instance instDecEqExcept {ε α : Type} [DecidableEq ε] [DecidableEq α] :
    DecidableEq (Except ε α) := fun a b =>
  match a, b with
  | .ok x, .ok y =>
      if h : x = y then .isTrue (by rw [h]) else .isFalse (by simp [h])
  | .error x, .error y =>
      if h : x = y then .isTrue (by rw [h]) else .isFalse (by simp [h])
  | .ok _, .error _ => .isFalse (by simp)
  | .error _, .ok _ => .isFalse (by simp)

/-! Operational model of `__init__`: the statements of the constructor body
in source order, over a slot store, to observe when fields are written. -/

/-- The three `__slots__` of an instance under construction; `none` means
the slot has not been assigned yet. -/
structure InitState where
  slot_as_class : Option PyValue
  slot_tz_aware : Option PyValue
  slot_uuid_rep : Option PyValue
deriving DecidableEq, Repr

/-- The store of a freshly allocated instance: no slot assigned. -/
def emptyInitState : InitState := ⟨none, none, none⟩

/-- The statements of `CodecOptions.__init__`. -/
inductive InitStmt
  | checkAsClass
  | checkTzAware
  | checkUuidRep
  | storeAsClass
  | storeTzAware
  | storeUuidRep
deriving DecidableEq, Repr

/-- The body of `__init__` in source order: the three raises come before
the three slot assignments. -/
def initBody : List InitStmt :=
  [.checkAsClass, .checkTzAware, .checkUuidRep,
   .storeAsClass, .storeTzAware, .storeUuidRep]

/-- One statement of `__init__` on the slot store, for the supplied
arguments. -/
def execInitStmt (a t u : PyValue) : InitStmt → InitState →
    Except PyError InitState
  | .checkAsClass, s =>
    match issubclassMutableMapping a with
    | .error e => .error e
    | .ok sub =>
      if !sub then .error (.typeError containerErrMsg) else .ok s
  | .checkTzAware, s =>
      if !t.isBool then .error (.typeError tzAwareErrMsg) else .ok s
  | .checkUuidRep, s =>
      if !uuidRepMember u then .error (.valueError uuidRepErrMsg) else .ok s
  | .storeAsClass, s => .ok ⟨some a, s.slot_tz_aware, s.slot_uuid_rep⟩
  | .storeTzAware, s => .ok ⟨s.slot_as_class, some t, s.slot_uuid_rep⟩
  | .storeUuidRep, s => .ok ⟨s.slot_as_class, s.slot_tz_aware, some u⟩

/-- Sequential execution of constructor statements; a raise aborts and
reports the store as it was at the raise. -/
def execInit (a t u : PyValue) : List InitStmt → InitState →
    Except (PyError × InitState) InitState
  | [], s => .ok s
  | st :: rest, s =>
    match execInitStmt a t u st s with
    | .error e => .error (e, s)
    | .ok s2 => execInit a t u rest s2

/-- Running `__init__` on a fresh instance. -/
def runInit (a t u : PyValue) : Except (PyError × InitState) InitState :=
  execInit a t u initBody emptyInitState

/-- Reading the `as_class` property: the returned value together with the
(unchanged) instance. -/
def CodecOptions.readAsClass (c : CodecOptions) : PyValue × CodecOptions :=
  (c.as_class, c)

/-- Reading the `tz_aware` property. -/
def CodecOptions.readTzAware (c : CodecOptions) : PyValue × CodecOptions :=
  (c.tz_aware, c)

/-- Reading the `uuid_representation` property. -/
def CodecOptions.readUuidRep (c : CodecOptions) : PyValue × CodecOptions :=
  (c.uuid_representation, c)

/-- Calling `__eq__`: the outcome together with the (unchanged) instance. -/
def CodecOptions.eqCall (c : CodecOptions) (o : PyObject) :
    Except PyError Bool × CodecOptions :=
  (c.eq o, c)

/-! Helper lemmas. -/

/-- A value passing the container check is a class on which the Python
`issubclass` call answers `True`. -/
theorem issubclass_ok_of_check (a : PyValue) (h : satisfiesContainerCheck a = true) :
    issubclassMutableMapping a = .ok true := by
  cases a <;> simp_all [satisfiesContainerCheck, issubclassMutableMapping]

/-- Unfolded form of a successful construction. -/
theorem construct_ok_of_valid (a t u : PyValue)
    (ha : satisfiesContainerCheck a = true) (ht : t.isBool = true)
    (hu : uuidRepMember u = true) :
    CodecOptions.construct a t u = .ok ⟨a, t, u⟩ := by
  simp [CodecOptions.construct, issubclass_ok_of_check a ha, ht, hu]

/-- The fields of a valid instance have the shapes the three checks
enforce: a conforming class, a genuine boolean, and an integer constant
from the enumeration. -/
theorem valid_shape (c : CodecOptions) (h : c.valid = true) :
    (∃ k, c.as_class = .cls k ∧ k.isMutableMappingSubclass = true) ∧
    (∃ b, c.tz_aware = .bool b) ∧
    (∃ n, c.uuid_representation = .int n) := by
  obtain ⟨a, t, u⟩ := c
  simp only [CodecOptions.valid, Bool.and_eq_true] at h
  obtain ⟨⟨ha, ht⟩, hu⟩ := h
  refine ⟨?_, ?_, ?_⟩
  · cases a <;> first
      | exact ⟨_, rfl, ha⟩
      | simp [satisfiesContainerCheck] at ha
  · cases t <;> first
      | exact ⟨_, rfl⟩
      | simp [PyValue.isBool] at ht
  · cases u with
    | int n => exact ⟨n, rfl⟩
    | bool b => cases b <;> exact absurd hu (by decide)
    | str s => simp [uuidRepMember, ALL_UUID_REPRESENTATIONS, pyEq] at hu
    | cls k => simp [uuidRepMember, ALL_UUID_REPRESENTATIONS, pyEq] at hu
    | pynone => exact absurd hu (by decide)

/-- On valid instances, `__eq__` answers `True` exactly when the three
fields are pairwise equal. -/
theorem eq_ok_true_iff (a b : CodecOptions)
    (ha : a.valid = true) (hb : b.valid = true) :
    a.eq (.co b) = .ok true ↔
      a.as_class = b.as_class ∧ a.tz_aware = b.tz_aware ∧
      a.uuid_representation = b.uuid_representation := by
  obtain ⟨⟨ka, hka, _⟩, ⟨ba, hba⟩, ⟨na, hna⟩⟩ := valid_shape a ha
  obtain ⟨⟨kb, hkb, _⟩, ⟨bb, hbb⟩, ⟨nb, hnb⟩⟩ := valid_shape b hb
  simp [CodecOptions.eq, hka, hba, hna, hkb, hbb, hnb, pyEq]
  exact and_assoc

/-- Prepending an entry under a different key leaves a lookup unchanged. -/
theorem dictGet_cons_ne (k : String) (v : PyValue)
    (bag : List (String × PyValue)) (key : String) (dflt : PyValue)
    (h : k ≠ key) :
    dictGet ((k, v) :: bag) key dflt = dictGet bag key dflt := by
  have hk : (k == key) = false := beq_eq_false_iff_ne.mpr h
  simp [dictGet, List.find?, hk]

/-- A lookup in a bag holding no entry under the key yields the default. -/
theorem dictGet_eq_dflt (bag : List (String × PyValue)) (key : String)
    (dflt : PyValue) (h : ∀ p ∈ bag, p.1 ≠ key) :
    dictGet bag key dflt = dflt := by
  induction bag with
  | nil => rfl
  | cons p rest ih =>
      obtain ⟨k, v⟩ := p
      rw [dictGet_cons_ne k v rest key dflt (h (k, v) (by simp))]
      exact ih (fun q hq => h q (List.mem_cons_of_mem _ hq))

/-- Outcomes of `__init__`: a raise leaves every slot unassigned, and a
successful run assigns all three slots to the supplied values; either way
the outcome agrees with the value-level `construct`. -/
theorem runInit_cases (a t u : PyValue) :
    (∃ e, runInit a t u = .error (e, emptyInitState) ∧
       CodecOptions.construct a t u = .error e) ∨
    (runInit a t u = .ok ⟨some a, some t, some u⟩ ∧
       CodecOptions.construct a t u = .ok ⟨a, t, u⟩) := by
  rcases hs : issubclassMutableMapping a with e | sub
  · exact Or.inl ⟨e,
      by simp [runInit, initBody, execInit, execInitStmt, hs],
      by simp [CodecOptions.construct, hs]⟩
  · cases sub with
    | false =>
        exact Or.inl ⟨.typeError containerErrMsg,
          by simp [runInit, initBody, execInit, execInitStmt, hs],
          by simp [CodecOptions.construct, hs]⟩
    | true =>
        cases ht : t.isBool with
        | false =>
            exact Or.inl ⟨.typeError tzAwareErrMsg,
              by simp [runInit, initBody, execInit, execInitStmt, hs, ht],
              by simp [CodecOptions.construct, hs, ht]⟩
        | true =>
            cases hu : uuidRepMember u with
            | false =>
                exact Or.inl ⟨.valueError uuidRepErrMsg,
                  by simp [runInit, initBody, execInit, execInitStmt, hs,
                    ht, hu],
                  by simp [CodecOptions.construct, hs, ht, hu]⟩
            | true =>
                exact Or.inr
                  ⟨by simp [runInit, initBody, execInit, execInitStmt, hs,
                     ht, hu, emptyInitState],
                   by simp [CodecOptions.construct, hs, ht, hu]⟩

/-- `__ne__` exhausts any fuel bound without producing a value. -/
theorem neFuel_none (fuel : Nat) (self : CodecOptions) (other : PyObject) :
    CodecOptions.neFuel fuel self other = none := by
  induction fuel with
  | zero => rfl
  | succ n ih => simpa [CodecOptions.neFuel] using ih

/-! Claim theorems. -/

/-- C1: for every triple passing the three validation checks (container
check on `as_class`, genuine-boolean check on `tz_aware`, membership of
`uuid_representation` in the enumerated set), construction succeeds, and
the three read-only accessors return exactly the supplied values. -/
theorem construct_valid_succeeds_and_accessors (a t u : PyValue)
    (ha : satisfiesContainerCheck a = true)
    (ht : t.isBool = true)
    (hu : uuidRepMember u = true) :
    CodecOptions.construct a t u = .ok ⟨a, t, u⟩ ∧
    (CodecOptions.mk a t u).as_class = a ∧
    (CodecOptions.mk a t u).tz_aware = t ∧
    (CodecOptions.mk a t u).uuid_representation = u :=
  ⟨construct_ok_of_valid a t u ha ht hu, rfl, rfl, rfl⟩

/-- C1 witness: the default triple `(dict, False, PYTHON_LEGACY)` passes
the checks and is stored unchanged. -/
theorem construct_valid_succeeds_and_accessors_witness :
    satisfiesContainerCheck (.cls .dict) = true ∧
    PyValue.isBool (.bool false) = true ∧
    uuidRepMember (.int 3) = true ∧
    CodecOptions.construct (.cls .dict) (.bool false) (.int 3) =
      .ok ⟨.cls .dict, .bool false, .int 3⟩ :=
  ⟨by decide, by decide, by decide,
   (construct_valid_succeeds_and_accessors (.cls .dict) (.bool false) (.int 3)
     (by decide) (by decide) (by decide)).1⟩

/-- C2: on successfully constructible instances, `__eq__` answers `True`
exactly when the three fields are pairwise equal; it is reflexive,
symmetric and transitive, and any field difference makes it answer
`False`. -/
theorem eq_fieldwise_refl_symm_trans (a b c : CodecOptions)
    (ha : a.valid = true) (hb : b.valid = true) (hc : c.valid = true) :
    (a.eq (.co b) = .ok true ↔
       a.as_class = b.as_class ∧ a.tz_aware = b.tz_aware ∧
       a.uuid_representation = b.uuid_representation) ∧
    a.eq (.co a) = .ok true ∧
    (a.eq (.co b) = .ok true → b.eq (.co a) = .ok true) ∧
    (a.eq (.co b) = .ok true → b.eq (.co c) = .ok true →
       a.eq (.co c) = .ok true) ∧
    ((a.as_class ≠ b.as_class ∨ a.tz_aware ≠ b.tz_aware ∨
        a.uuid_representation ≠ b.uuid_representation) →
      a.eq (.co b) = .ok false) := by
  refine ⟨eq_ok_true_iff a b ha hb, ?_, ?_, ?_, ?_⟩
  · exact (eq_ok_true_iff a a ha ha).mpr ⟨rfl, rfl, rfl⟩
  · intro h
    obtain ⟨h1, h2, h3⟩ := (eq_ok_true_iff a b ha hb).mp h
    exact (eq_ok_true_iff b a hb ha).mpr ⟨h1.symm, h2.symm, h3.symm⟩
  · intro h h'
    obtain ⟨h1, h2, h3⟩ := (eq_ok_true_iff a b ha hb).mp h
    obtain ⟨h1', h2', h3'⟩ := (eq_ok_true_iff b c hb hc).mp h'
    exact (eq_ok_true_iff a c ha hc).mpr
      ⟨h1.trans h1', h2.trans h2', h3.trans h3'⟩
  · intro hne
    cases hres : (pyEq a.as_class b.as_class &&
        pyEq a.tz_aware b.tz_aware &&
        pyEq a.uuid_representation b.uuid_representation) with
    | false => simp [CodecOptions.eq, hres]
    | true =>
        have h1 : a.eq (.co b) = .ok true := by simp [CodecOptions.eq, hres]
        obtain ⟨e1, e2, e3⟩ := (eq_ok_true_iff a b ha hb).mp h1
        rcases hne with h | h | h
        · exact absurd e1 h
        · exact absurd e2 h
        · exact absurd e3 h

/-- C2 witness: applied to concrete valid instances; two instances from the
triple `(dict, False, 3)` compare equal, and an instance differing in the
`tz_aware` field compares unequal. -/
theorem eq_fieldwise_refl_symm_trans_witness :
    CodecOptions.valid ⟨.cls .dict, .bool false, .int 3⟩ = true ∧
    CodecOptions.valid ⟨.cls .dict, .bool true, .int 3⟩ = true ∧
    CodecOptions.eq ⟨.cls .dict, .bool false, .int 3⟩
      (.co ⟨.cls .dict, .bool false, .int 3⟩) = .ok true ∧
    CodecOptions.eq ⟨.cls .dict, .bool false, .int 3⟩
      (.co ⟨.cls .dict, .bool true, .int 3⟩) = .ok false :=
  ⟨by decide, by decide,
   (eq_fieldwise_refl_symm_trans ⟨.cls .dict, .bool false, .int 3⟩
     ⟨.cls .dict, .bool false, .int 3⟩ ⟨.cls .dict, .bool false, .int 3⟩
     (by decide) (by decide) (by decide)).2.1,
   (eq_fieldwise_refl_symm_trans ⟨.cls .dict, .bool false, .int 3⟩
     ⟨.cls .dict, .bool true, .int 3⟩ ⟨.cls .dict, .bool false, .int 3⟩
     (by decide) (by decide) (by decide)).2.2.2.2
     (Or.inr (Or.inl (by decide)))⟩

/-- C3: `_parse_codec_options` is exactly `CodecOptions` construction on
the values of the three well-known keys with their defaults (so validation
failures propagate unchanged); an entry under any other key has no effect;
the empty bag yields the default instance; and a bag holding only
unrecognized keys succeeds with that same result. -/
theorem parse_codec_options_spec (bag : List (String × PyValue))
    (k : String) (v : PyValue) :
    parse_codec_options bag = CodecOptions.construct
      (dictGet bag "document_class" (.cls .dict))
      (dictGet bag "tz_aware" (.bool false))
      (dictGet bag "uuidrepresentation" PYTHON_LEGACY) ∧
    (k ≠ "document_class" → k ≠ "tz_aware" → k ≠ "uuidrepresentation" →
      parse_codec_options ((k, v) :: bag) = parse_codec_options bag) ∧
    parse_codec_options [] = .ok ⟨.cls .dict, .bool false, PYTHON_LEGACY⟩ ∧
    ((∀ p ∈ bag, p.1 ≠ "document_class" ∧ p.1 ≠ "tz_aware" ∧
        p.1 ≠ "uuidrepresentation") →
      parse_codec_options bag = parse_codec_options []) := by
  refine ⟨rfl, ?_, by decide, ?_⟩
  · intro h1 h2 h3
    unfold parse_codec_options
    rw [dictGet_cons_ne k v bag _ _ h1, dictGet_cons_ne k v bag _ _ h2,
      dictGet_cons_ne k v bag _ _ h3]
  · intro h
    unfold parse_codec_options
    rw [dictGet_eq_dflt bag _ _ (fun p hp => (h p hp).1),
      dictGet_eq_dflt bag _ _ (fun p hp => (h p hp).2.1),
      dictGet_eq_dflt bag _ _ (fun p hp => (h p hp).2.2)]
    rfl

/-- C3 witness: a bag holding only the unrecognized key `unrelated_key`
parses to the same result as the empty bag. -/
theorem parse_codec_options_spec_witness :
    parse_codec_options [("unrelated_key", PyValue.int 123)] =
      parse_codec_options [] ∧
    parse_codec_options [] = .ok ⟨.cls .dict, .bool false, PYTHON_LEGACY⟩ :=
  ⟨(parse_codec_options_spec [] "unrelated_key" (.int 123)).2.1
     (by decide) (by decide) (by decide),
   (parse_codec_options_spec [] "unrelated_key" (.int 123)).2.2.1⟩

/-- C4: at two equal default instances, `__eq__` answers `True` (so the
claimed negation semantics would make `!=` return `False`), yet `__ne__`
exhausts every recursion budget without producing any value. -/
theorem ne_diverges_on_equal_instances (fuel : Nat) :
    CodecOptions.neFuel fuel ⟨.cls .dict, .bool false, PYTHON_LEGACY⟩
      (.co ⟨.cls .dict, .bool false, PYTHON_LEGACY⟩) = none ∧
    CodecOptions.eq ⟨.cls .dict, .bool false, PYTHON_LEGACY⟩
      (.co ⟨.cls .dict, .bool false, PYTHON_LEGACY⟩) = .ok true :=
  ⟨neFuel_none fuel _ _, by decide⟩

/-- C5: with the other two arguments otherwise valid, an `as_class` that
does not satisfy the map-like capability set makes construction fail with a
`TypeError`, while one that satisfies it makes construction succeed (the
check never fires later, at accessor-use time). -/
theorem construct_container_check (a t u : PyValue)
    (ht : t.isBool = true) (hu : uuidRepMember u = true) :
    (satisfiesContainerCheck a = false →
      resultIsTypeError (CodecOptions.construct a t u) = true) ∧
    (satisfiesContainerCheck a = true →
      CodecOptions.construct a t u = .ok ⟨a, t, u⟩) := by
  constructor
  · intro ha
    cases a with
    | cls c =>
        simp [satisfiesContainerCheck] at ha
        simp [CodecOptions.construct, issubclassMutableMapping, ha,
          resultIsTypeError]
    | bool b => simp [CodecOptions.construct, issubclassMutableMapping,
        resultIsTypeError]
    | int n => simp [CodecOptions.construct, issubclassMutableMapping,
        resultIsTypeError]
    | str s => simp [CodecOptions.construct, issubclassMutableMapping,
        resultIsTypeError]
    | pynone => simp [CodecOptions.construct, issubclassMutableMapping,
        resultIsTypeError]
  · intro ha
    exact construct_ok_of_valid a t u ha ht hu

/-- C5 witness: `list` is not a `MutableMapping` subclass and is rejected;
`OrderedDict` is one and is accepted, with `tz_aware` and
`uuid_representation` otherwise valid. -/
theorem construct_container_check_witness :
    PyValue.isBool (.bool true) = true ∧
    uuidRepMember (.int 4) = true ∧
    satisfiesContainerCheck (.cls .listClass) = false ∧
    resultIsTypeError
      (CodecOptions.construct (.cls .listClass) (.bool true) (.int 4)) = true ∧
    satisfiesContainerCheck (.cls .orderedDict) = true ∧
    CodecOptions.construct (.cls .orderedDict) (.bool true) (.int 4) =
      .ok ⟨.cls .orderedDict, .bool true, .int 4⟩ :=
  ⟨by decide, by decide, by decide,
   (construct_container_check (.cls .listClass) (.bool true) (.int 4)
     (by decide) (by decide)).1 (by decide),
   by decide,
   (construct_container_check (.cls .orderedDict) (.bool true) (.int 4)
     (by decide) (by decide)).2 (by decide)⟩

/-- C6: with a conforming `as_class` and a non-boolean `tz_aware`,
construction fails with the `tz_aware` `TypeError` for every
`uuid_representation` value whatsoever — the boolean check is decided
before the membership check. -/
theorem construct_tz_aware_check (a t u : PyValue)
    (ha : satisfiesContainerCheck a = true) (ht : t.isBool = false) :
    CodecOptions.construct a t u = .error (.typeError tzAwareErrMsg) := by
  simp [CodecOptions.construct, issubclass_ok_of_check a ha, ht]

/-- C6 witness: `tz_aware = 1` (truthy but not a boolean) is rejected with
the boolean-check `TypeError` even though the supplied
`uuid_representation` is itself invalid. -/
theorem construct_tz_aware_check_witness :
    satisfiesContainerCheck (.cls .dict) = true ∧
    PyValue.isBool (.int 1) = false ∧
    uuidRepMember (.int 99) = false ∧
    CodecOptions.construct (.cls .dict) (.int 1) (.int 99) =
      .error (.typeError tzAwareErrMsg) :=
  ⟨by decide, by decide, by decide,
   construct_tz_aware_check (.cls .dict) (.int 1) (.int 99)
     (by decide) (by decide)⟩

/-- C7: with the first two checks passing, a `uuid_representation` outside
the enumerated set makes construction fail with a `ValueError`, and any
member of the set passes the check (construction succeeds). -/
theorem construct_uuid_rep_check (a t u : PyValue)
    (ha : satisfiesContainerCheck a = true) (ht : t.isBool = true) :
    (uuidRepMember u = false →
      CodecOptions.construct a t u = .error (.valueError uuidRepErrMsg)) ∧
    (uuidRepMember u = true →
      CodecOptions.construct a t u = .ok ⟨a, t, u⟩) := by
  constructor
  · intro hu
    simp [CodecOptions.construct, issubclass_ok_of_check a ha, ht, hu]
  · intro hu
    exact construct_ok_of_valid a t u ha ht hu

/-- C7 witness: `uuid_representation = 99` is outside the set and rejected
with `ValueError`; `uuid_representation = 5` is a member and accepted. -/
theorem construct_uuid_rep_check_witness :
    satisfiesContainerCheck (.cls .son) = true ∧
    PyValue.isBool (.bool false) = true ∧
    uuidRepMember (.int 99) = false ∧
    CodecOptions.construct (.cls .son) (.bool false) (.int 99) =
      .error (.valueError uuidRepErrMsg) ∧
    uuidRepMember (.int 5) = true ∧
    CodecOptions.construct (.cls .son) (.bool false) (.int 5) =
      .ok ⟨.cls .son, .bool false, .int 5⟩ :=
  ⟨by decide, by decide, by decide,
   (construct_uuid_rep_check (.cls .son) (.bool false) (.int 99)
     (by decide) (by decide)).1 (by decide),
   by decide,
   (construct_uuid_rep_check (.cls .son) (.bool false) (.int 5)
     (by decide) (by decide)).2 (by decide)⟩

/-- C8: comparing a `CodecOptions` against any non-`CodecOptions` value
raises `NotImplementedError` instead of resolving to "unequal". -/
theorem eq_non_codec_options_raises (c : CodecOptions) (v : PyValue) :
    c.eq (.plain v) = .error .notImplementedError := rfl

/-- C9: running the constructor either raises with every slot still
unassigned (no partial object observable, and `construct` fails with that
same error) or assigns all three slots exactly once to the supplied values
(and `construct` succeeds with them); afterwards, property reads and
equality calls return the instance unchanged, so repeated reads return the
same values. -/
theorem init_all_or_nothing_and_reads_idempotent (a t u : PyValue) :
    (∀ e s, runInit a t u = .error (e, s) →
       s = emptyInitState ∧ CodecOptions.construct a t u = .error e) ∧
    (∀ s, runInit a t u = .ok s →
       s = ⟨some a, some t, some u⟩ ∧
       CodecOptions.construct a t u = .ok ⟨a, t, u⟩) ∧
    (∀ c : CodecOptions,
       c.readAsClass.2 = c ∧ c.readTzAware.2 = c ∧ c.readUuidRep.2 = c ∧
       (∀ o, (c.eqCall o).2 = c) ∧
       c.readAsClass.2.readAsClass.1 = c.readAsClass.1 ∧
       c.readTzAware.2.readTzAware.1 = c.readTzAware.1 ∧
       c.readUuidRep.2.readUuidRep.1 = c.readUuidRep.1) := by
  refine ⟨?_, ?_, ?_⟩
  · intro e s hrun
    rcases runInit_cases a t u with ⟨e', h1, h2⟩ | ⟨h1, h2⟩
    · rw [hrun] at h1
      injection h1 with hpair
      injection hpair with he hst
      exact ⟨hst, he ▸ h2⟩
    · rw [hrun] at h1
      exact absurd h1 (by simp)
  · intro s hrun
    rcases runInit_cases a t u with ⟨e', h1, h2⟩ | ⟨h1, h2⟩
    · rw [hrun] at h1
      exact absurd h1 (by simp)
    · rw [hrun] at h1
      have hst : s = ⟨some a, some t, some u⟩ := by
        injection h1
      exact ⟨hst, h2⟩
  · intro c
    exact ⟨rfl, rfl, rfl, fun _ => rfl, rfl, rfl, rfl⟩

/-- C9 witness: a successful run assigns all slots to the supplied values,
and a failing run (non-conforming container class) raises with every slot
still unassigned. -/
theorem init_all_or_nothing_witness :
    ((⟨some (.cls .dict), some (.bool false), some (.int 3)⟩ : InitState) =
        ⟨some (.cls .dict), some (.bool false), some (.int 3)⟩ ∧
      CodecOptions.construct (.cls .dict) (.bool false) (.int 3) =
        .ok ⟨.cls .dict, .bool false, .int 3⟩) ∧
    (emptyInitState = emptyInitState ∧
      CodecOptions.construct (.cls .intClass) (.bool false) (.int 3) =
        .error (.typeError containerErrMsg)) :=
  ⟨(init_all_or_nothing_and_reads_idempotent (.cls .dict) (.bool false)
      (.int 3)).2.1
      ⟨some (.cls .dict), some (.bool false), some (.int 3)⟩ (by decide),
   (init_all_or_nothing_and_reads_idempotent (.cls .intClass) (.bool false)
      (.int 3)).1 (.typeError containerErrMsg) emptyInitState (by decide)⟩

/-- C10: for every instance, operand and recursion budget, `__ne__` —
which is `return self != other`, re-invoking itself on the same operands —
never produces a value. -/
theorem ne_never_terminates (fuel : Nat) (self : CodecOptions)
    (other : PyObject) :
    CodecOptions.neFuel fuel self other = none :=
  neFuel_none fuel self other
